import Mathlib

/-!
Verification development for the container bootstrap orchestrator
(`src/process/intermediate.rs`) and the cgroup v1 PID-limit controller
(`src/cgroups/v1/pids.rs`).

The Rust code is a straight-line sequence of fallible external operations
(namespace entry, channel messages, syscall-capability calls, cgroup-manager
calls).  We embed it as a trace-producing computation: an `Env` oracle fixes
the outcome of every external operation, every invoked operation is recorded
as an `Event`, and the result is `ok`, an `Err` value (anyhow-style context
chain), or `panicked` (a Rust `.unwrap()` on a failed call).
-/

namespace Youki

/-- Namespace types of `oci_spec::runtime::LinuxNamespaceType`. -/
inductive NamespaceType
  | mount
  | cgroup
  | uts
  | ipc
  | user
  | pid
  | network
deriving DecidableEq

/-- Printable name of a namespace type, used for debug formatting. -/
def NamespaceType.name : NamespaceType → String
  | .mount => "Mount"
  | .cgroup => "Cgroup"
  | .uts => "Uts"
  | .ipc => "Ipc"
  | .user => "User"
  | .pid => "Pid"
  | .network => "Network"

/-- One `LinuxNamespace` entry of the spec: a type plus an optional
existing-namespace path to join. -/
structure LinuxNamespace where
  typ : NamespaceType
  path : Option String
deriving DecidableEq

/-- Debug rendering of a namespace, standing for Rust's format of the value
inside the error context strings. -/
def nsDebug (ns : LinuxNamespace) : String :=
  "LinuxNamespace typ: " ++ ns.typ.name ++ ", path: " ++
    (match ns.path with
     | none => "None"
     | some p => "Some " ++ p)

/-- Modelled from the spec: the `Namespaces` collection (built by
`Namespaces::from` outside src/) is an ordered set of namespaces with unique
types; `get` returns the entry of a given type. -/
structure Namespaces where
  list : List LinuxNamespace

/-- Modelled from the spec: `Namespaces::from(Option<&Vec<LinuxNamespace>>)`,
an absent list yields the empty collection. -/
def Namespaces.fromList (o : Option (List LinuxNamespace)) : Namespaces :=
  ⟨o.getD []⟩

/-- Modelled from the spec: lookup of the namespace entry with the given
type. -/
def Namespaces.get (nss : Namespaces) (t : NamespaceType) : Option LinuxNamespace :=
  nss.list.find? (fun ns => ns.typ == t)

/-- One rlimit descriptor (`LinuxRlimit`): a kind plus hard and soft values. -/
structure Rlimit where
  typ : String
  hard : Nat
  soft : Nat
deriving DecidableEq

/-- The pids cgroup resource (`LinuxPids`): a signed 64-bit limit, embedded
as `Int`. -/
structure LinuxPids where
  limit : Int
deriving DecidableEq

/-- The subset of `LinuxResources` the embedded code reads: for
`intermediate.rs` only its presence matters, for the pids controller the
`pids` field. -/
structure LinuxResources where
  pids : Option LinuxPids
deriving DecidableEq

/-- The spec's process configuration: the optional rlimits list. -/
structure ProcessSpec where
  rlimits : Option (List Rlimit)

/-- The subset of the `Linux` section the embedded code reads. -/
structure LinuxSpec where
  namespaces : Option (List LinuxNamespace)
  resources : Option LinuxResources

/-- The runtime spec document: optional linux and process sections. -/
structure RuntimeSpec where
  linux : Option LinuxSpec
  process : Option ProcessSpec

/-- `ContainerArgs` as consumed by the intermediate stage: the spec, the
`init` flag and the rootless marker (presence only).  The syscall and cgroup
manager handles are represented by the `Env` oracle. -/
structure ContainerArgs where
  spec : RuntimeSpec
  init : Bool
  rootless : Option Unit

/-- An anyhow-style error: a base message, possibly wrapped in context
layers added by `.context(...)` / `.with_context(...)`. -/
inductive Err
  | msg (s : String)
  | ctx (c : String) (e : Err)
deriving DecidableEq

/-- Result of running an embedded computation: success, an error returned to
the caller, or a Rust panic (`.unwrap()` on a failed call). -/
inductive Res (α : Type)
  | ok (a : α)
  | err (e : Err)
  | panicked
deriving DecidableEq

/-- Observable events of the intermediate-stage bootstrap, recorded at the
point the corresponding external operation is invoked. -/
inductive Event
  | enterNs (ns : LinuxNamespace)
  | setDumpable (b : Bool)
  | sendIdMappingRequest
  | recvMappingAck
  | setId (uid : Nat) (gid : Nat)
  | setRlimit (r : Rlimit)
  | addTask (pid : Int)
  | applyResources
  | createInitChannel
  | forkInit (pid : Int)
  | closeIntermediateSender
  | closeInitSender
  | recvInitReady
  | sendIntermediateReady (pid : Int)
deriving DecidableEq

/-- A completed run: the list of invoked operations, in order, and the
result. -/
structure Comp (α : Type) where
  trace : List Event
  res : Res α

/-- Oracle fixing the outcome of every external operation the intermediate
stage performs.  `none` means the operation succeeds; `some s` means it
fails with source message `s`.  `myself` is `Process::myself()?.pid()`,
`fork` is `fork::container_fork(...)`.  `initSelfPid` is the pid the
init-stage process would report about itself from inside the pid namespace
(the code never reads it; it exists so that statements can compare the sent
pid against it). -/
structure Env where
  unshareOrSetns : LinuxNamespace → Option String
  setDumpable : Bool → Option String
  identifierMappingRequest : Option String
  waitForMappingAck : Option String
  setId : Option String
  setRlimit : Rlimit → Option String
  myself : Except String Int
  addTask : Option String
  applyResources : Option String
  initChannel : Option String
  fork : Except String Int
  closeIntermediateSender : Option String
  closeInitSender : Option String
  waitForInitReady : Option String
  intermediateReady : Option String
  initSelfPid : Int

/-- Sequencing of two unit computations: the second runs only when the
first succeeded; traces accumulate. -/
def Comp.andThen : Comp Unit → Comp Unit → Comp Unit
  | ⟨t, .ok _⟩, d => ⟨t ++ d.trace, d.res⟩
  | ⟨t, .err e⟩, _ => ⟨t, .err e⟩
  | ⟨t, .panicked⟩, _ => ⟨t, .panicked⟩

/-- Sequencing of an `Int`-valued computation with a continuation. -/
def Comp.bindInt : Comp Int → (Int → Comp Unit) → Comp Unit
  | ⟨t, .ok p⟩, f => ⟨t ++ (f p).trace, (f p).res⟩
  | ⟨t, .err e⟩, _ => ⟨t, .err e⟩
  | ⟨t, .panicked⟩, _ => ⟨t, .panicked⟩

/-- Wrap a failing result in one more context layer, as
`.context(c)?` does. -/
def Comp.withContext : Comp Unit → String → Comp Unit
  | ⟨t, .err e⟩, c => ⟨t, .err (.ctx c e)⟩
  | c, _ => c

/-- A fallible external call whose error is propagated bare by `?`. -/
def opErr (r : Option String) (ev : Event) : Comp Unit :=
  match r with
  | none => ⟨[ev], .ok ()⟩
  | some s => ⟨[ev], .err (.msg s)⟩

/-- A fallible external call whose error is wrapped by `.context(c)?`. -/
def opCtx (r : Option String) (ev : Event) (c : String) : Comp Unit :=
  match r with
  | none => ⟨[ev], .ok ()⟩
  | some s => ⟨[ev], .err (.ctx c (.msg s))⟩

/-- A fallible external call followed by `.unwrap()`: failure panics. -/
def opUnwrap (r : Option String) (ev : Event) : Comp Unit :=
  match r with
  | none => ⟨[ev], .ok ()⟩
  | some _ => ⟨[ev], .panicked⟩

/-- The user-namespace UID/GID mapping handshake
(`intermediate.rs` lines 33-38): mark dumpable (unwrap), send the mapping
request, block for the ack, clear dumpable (unwrap). -/
def handshake (env : Env) : Comp Unit :=
  (opUnwrap (env.setDumpable true) (.setDumpable true)).andThen <|
  (opErr env.identifierMappingRequest .sendIdMappingRequest).andThen <|
  (opErr env.waitForMappingAck .recvMappingAck).andThen
  (opUnwrap (env.setDumpable false) (.setDumpable false))

/-- The user-namespace block (`intermediate.rs` lines 27-50): enter the
user namespace; if it is newly created (no path), run the handshake; then
force identity to namespace root via `set_id(0, 0)`. -/
def userNsStage (env : Env) (nss : Namespaces) : Comp Unit :=
  match nss.get .user with
  | none => ⟨[], .ok ()⟩
  | some u =>
    (opCtx (env.unshareOrSetns u) (.enterNs u)
        ("Failed to enter user namespace: " ++ nsDebug u)).andThen <|
    (match u.path with
     | none => handshake env
     | some _ => ⟨[], .ok ()⟩).andThen
    (opCtx env.setId (.setId 0 0)
        "Failed to configure uid and gid root in the beginning of a new user namespace")

/-- The rlimit loop body (`intermediate.rs` lines 54-58): apply each rlimit
in order, aborting on the first failure with context
"failed to set rlimit". -/
def applyRlimits (env : Env) : List Rlimit → Comp Unit
  | [] => ⟨[], .ok ()⟩
  | r :: rest =>
    (opCtx (env.setRlimit r) (.setRlimit r) "failed to set rlimit").andThen
    (applyRlimits env rest)

/-- The rlimit stage: iterate `proc.rlimits()` when present. -/
def rlimitStage (env : Env) (proc : ProcessSpec) : Comp Unit :=
  match proc.rlimits with
  | none => ⟨[], .ok ()⟩
  | some l => applyRlimits env l

/-- The pid-namespace entry (`intermediate.rs` lines 61-65). -/
def pidNsStage (env : Env) (nss : Namespaces) : Comp Unit :=
  match nss.get .pid with
  | none => ⟨[], .ok ()⟩
  | some p =>
    opCtx (env.unshareOrSetns p) (.enterNs p)
      ("Failed to enter pid namespace: " ++ nsDebug p)

/-- `apply_cgroups` (`intermediate.rs` lines 115-141): look up the current
pid, add it to the cgroup manager, and push resource limits only when
resources are present and `init` is true. -/
def apply_cgroups (env : Env) (resources : Option LinuxResources) (init : Bool) :
    Comp Unit :=
  match env.myself with
  | .error s => ⟨[], .err (.msg s)⟩
  | .ok pid =>
    (opCtx env.addTask (.addTask pid)
        ("failed to add task " ++ toString pid ++ " to cgroup manager")).andThen
    (match resources, init with
     | some _, true =>
       opCtx env.applyResources .applyResources
         "failed to apply resource limits to cgroup"
     | _, _ => ⟨[], .ok ()⟩)

/-- The cgroup stage (`intermediate.rs` lines 69-76): skipped entirely in
rootless mode, otherwise `apply_cgroups` with context
"failed to apply cgroups". -/
def cgroupsStage (env : Env) (args : ContainerArgs) (linux : LinuxSpec) : Comp Unit :=
  match args.rootless with
  | some _ => ⟨[], .ok ()⟩
  | none =>
    (apply_cgroups env linux.resources args.init).withContext "failed to apply cgroups"

/-- `channel::init_channel()?` (`intermediate.rs` line 79). -/
def initChannelComp (env : Env) : Comp Unit :=
  match env.initChannel with
  | none => ⟨[.createInitChannel], .ok ()⟩
  | some s => ⟨[], .err (.msg s)⟩

/-- `fork::container_fork(...)?` (`intermediate.rs` lines 84-93): on
success it returns the child's pid as seen by the calling process. -/
def forkComp (env : Env) : Comp Int :=
  match env.fork with
  | .error s => ⟨[], .err (.msg s)⟩
  | .ok pid => ⟨[.forkInit pid], .ok pid⟩

/-- The steps after the fork (`intermediate.rs` lines 95-110): close the
unused channel ends, wait for `InitReady`, send `IntermediateReady(pid)`
where `pid` is the value the fork call returned. -/
def postFork (env : Env) (pid : Int) : Comp Unit :=
  (opCtx env.closeIntermediateSender .closeIntermediateSender
      "failed to close sender in the intermediate process").andThen <|
  (opCtx env.closeInitSender .closeInitSender
      "failed to close unused init sender").andThen <|
  (opCtx env.waitForInitReady .recvInitReady
      "failed to wait for the child").andThen
  (opCtx env.intermediateReady (.sendIntermediateReady pid)
      "failed to send child ready from intermediate process")

/-- `container_intermediate` (`intermediate.rs` lines 12-113): the whole
intermediate-stage bootstrap, as a trace-producing computation over the
oracle `env`. -/
def container_intermediate (env : Env) (args : ContainerArgs) : Comp Unit :=
  match args.spec.linux with
  | none => ⟨[], .err (.msg "no linux in spec")⟩
  | some linux =>
    (userNsStage env (Namespaces.fromList linux.namespaces)).andThen <|
    match args.spec.process with
    | none => ⟨[], .err (.msg "no process in spec")⟩
    | some proc =>
      (rlimitStage env proc).andThen <|
      (pidNsStage env (Namespaces.fromList linux.namespaces)).andThen <|
      (cgroupsStage env args linux).andThen <|
      (initChannelComp env).andThen <|
      Comp.bindInt (forkComp env) (postFork env)

/-! ### Embedding of `src/cgroups/v1/pids.rs` -/

/-- Filesystem paths, as lists of components; `p.join(s)` is `p ++ [s]`. -/
abbrev FsPath := List String

/-- A filesystem effect performed by a controller, recorded at the point
the operation is invoked. -/
inductive FsEffect
  | createDirAll (path : FsPath)
  | writeFile (path : FsPath) (content : String)
deriving DecidableEq

/-- Oracle fixing the outcome of the controller's filesystem operations;
`none` means success. -/
structure FsEnv where
  createDirAll : FsPath → Option String
  writeFile : FsPath → String → Option String

/-- Modelled from the spec: `common::CGROUP_PROCS`, the name of the
process-membership file under the cgroup root. -/
def CGROUP_PROCS : String := "cgroup.procs"

/-- Modelled from the spec: `common::write_cgroup_file_str` writes the given
string to the given cgroup file, failing per the environment. -/
def write_cgroup_file_str (env : FsEnv) (path : FsPath) (s : String) :
    List FsEffect × Res Unit :=
  match env.writeFile path s with
  | none => ([.writeFile path s], .ok ())
  | some m => ([.writeFile path s], .err (.msg m))

/-- Modelled from the spec: `common::write_cgroup_file` writes the decimal
pid to the given cgroup file, failing per the environment. -/
def write_cgroup_file (env : FsEnv) (path : FsPath) (pid : Int) :
    List FsEffect × Res Unit :=
  write_cgroup_file_str env path (toString pid)

/-- The value `Pids::apply` chooses for `pids.max` (`pids.rs` lines 36-40):
the decimal limit when positive, the literal string "max" otherwise. -/
def pidsFileValue (pids : LinuxPids) : String :=
  if pids.limit > 0 then toString pids.limit else "max"

/-- The inherent `Pids::apply` (`pids.rs` lines 35-44): write the chosen
limit value to `root_path/pids.max`. -/
def Pids.apply (env : FsEnv) (root_path : FsPath) (pids : LinuxPids) :
    List FsEffect × Res Unit :=
  write_cgroup_file_str env (root_path ++ ["pids.max"]) (pidsFileValue pids)

/-- The `Controller::apply` implementation for `Pids` (`pids.rs` lines
17-31): create the cgroup directory hierarchy, write `pids.max` when a pids
resource is present, then attach the target pid to `cgroup.procs`. -/
def Pids.controllerApply (env : FsEnv) (linux_resources : LinuxResources)
    (cgroup_root : FsPath) (pid : Int) : List FsEffect × Res Unit :=
  match env.createDirAll cgroup_root with
  | some s => ([.createDirAll cgroup_root], .err (.msg s))
  | none =>
    match linux_resources.pids with
    | some pids =>
      match Pids.apply env cgroup_root pids with
      | (t, .ok _) =>
        let w := write_cgroup_file env (cgroup_root ++ [CGROUP_PROCS]) pid
        (.createDirAll cgroup_root :: t ++ w.1, w.2)
      | (t, r) => (.createDirAll cgroup_root :: t, r)
    | none =>
      let w := write_cgroup_file env (cgroup_root ++ [CGROUP_PROCS]) pid
      (.createDirAll cgroup_root :: w.1, w.2)

/-! ### Expected traces of the intermediate stage -/

/-- Expected success trace of the user-namespace block. -/
def userNsTrace (nss : Namespaces) : List Event :=
  match nss.get .user with
  | none => []
  | some u =>
    .enterNs u ::
      ((match u.path with
        | none => [.setDumpable true, .sendIdMappingRequest, .recvMappingAck,
                   .setDumpable false]
        | some _ => []) ++ [.setId 0 0])

/-- Expected success trace of the rlimit stage. -/
def rlimitTrace (proc : ProcessSpec) : List Event :=
  (proc.rlimits.getD []).map (fun r => .setRlimit r)

/-- Expected success trace of the pid-namespace entry. -/
def pidNsTrace (nss : Namespaces) : List Event :=
  match nss.get .pid with
  | none => []
  | some p => [.enterNs p]

/-- Expected success trace of `apply_cgroups`. -/
def applyCgroupsTrace (env : Env) (resources : Option LinuxResources)
    (init : Bool) : List Event :=
  match env.myself with
  | .error _ => []
  | .ok pid =>
    .addTask pid ::
      (match resources, init with
       | some _, true => [.applyResources]
       | _, _ => [])

/-- Expected success trace of the cgroup stage. -/
def cgroupsTrace (env : Env) (args : ContainerArgs) (linux : LinuxSpec) :
    List Event :=
  match args.rootless with
  | some _ => []
  | none => applyCgroupsTrace env linux.resources args.init

/-- Expected success trace of the channel creation, fork and readiness
relay. -/
def finalTrace (env : Env) : List Event :=
  .createInitChannel ::
    (match env.fork with
     | .error _ => []
     | .ok pid => [.forkInit pid, .closeIntermediateSender, .closeInitSender,
                   .recvInitReady, .sendIntermediateReady pid])

/-- The full expected success trace of `container_intermediate`: the
claimed total order of the bootstrap steps. -/
def expectedTrace (env : Env) (args : ContainerArgs) : List Event :=
  match args.spec.linux with
  | none => []
  | some linux =>
    userNsTrace (Namespaces.fromList linux.namespaces) ++
      match args.spec.process with
      | none => []
      | some proc =>
        rlimitTrace proc ++
          (pidNsTrace (Namespaces.fromList linux.namespaces) ++
            (cgroupsTrace env args linux ++ finalTrace env))

/-- A run realizes an expected trace `t`: on success the trace is exactly
`t`, and in every case (success, error return or panic) the trace is an
initial segment of `t` — no step is ever performed out of order and nothing
later than a failing step is performed. -/
def StepsTo (c : Comp Unit) (t : List Event) : Prop :=
  (c.res = .ok () → c.trace = t) ∧ ∃ n, n ≤ t.length ∧ c.trace = t.take n

theorem stepsTo_pure : StepsTo ⟨[], .ok ()⟩ [] :=
  ⟨fun _ => rfl, 0, Nat.le_refl 0, rfl⟩

theorem stepsTo_errNil (e : Err) : StepsTo ⟨[], .err e⟩ [] :=
  ⟨fun _ => rfl, 0, Nat.le_refl 0, rfl⟩

theorem stepsTo_opErr (r : Option String) (ev : Event) :
    StepsTo (opErr r ev) [ev] := by
  cases r <;> exact ⟨fun _ => rfl, 1, Nat.le_refl 1, rfl⟩

theorem stepsTo_opCtx (r : Option String) (ev : Event) (c : String) :
    StepsTo (opCtx r ev c) [ev] := by
  cases r <;> exact ⟨fun _ => rfl, 1, Nat.le_refl 1, rfl⟩

theorem stepsTo_opUnwrap (r : Option String) (ev : Event) :
    StepsTo (opUnwrap r ev) [ev] := by
  cases r <;> exact ⟨fun _ => rfl, 1, Nat.le_refl 1, rfl⟩

theorem stepsTo_andThen {c d : Comp Unit} {t₁ t₂ : List Event}
    (hc : StepsTo c t₁) (hd : StepsTo d t₂) :
    StepsTo (c.andThen d) (t₁ ++ t₂) := by
  obtain ⟨tc, rc⟩ := c
  cases rc with
  | ok a =>
    cases a
    have htc : tc = t₁ := hc.1 rfl
    constructor
    · intro h
      simp only [Comp.andThen] at h ⊢
      rw [htc, hd.1 h]
    · obtain ⟨n, hn, hdt⟩ := hd.2
      refine ⟨t₁.length + n, ?_, ?_⟩
      · simp only [List.length_append]
        omega
      · simp only [Comp.andThen]
        rw [htc, hdt, List.take_append]
  | err e =>
    constructor
    · intro h
      exact absurd h (by simp [Comp.andThen])
    · obtain ⟨n, hn, hct⟩ := hc.2
      refine ⟨n, ?_, ?_⟩
      · simp only [List.length_append]
        omega
      · simp only [Comp.andThen]
        rw [show tc = List.take n t₁ from hct, List.take_append_of_le_length hn]
  | panicked =>
    constructor
    · intro h
      exact absurd h (by simp [Comp.andThen])
    · obtain ⟨n, hn, hct⟩ := hc.2
      refine ⟨n, ?_, ?_⟩
      · simp only [List.length_append]
        omega
      · simp only [Comp.andThen]
        rw [show tc = List.take n t₁ from hct, List.take_append_of_le_length hn]

theorem stepsTo_seq {c : Comp Unit} {t : List Event} (pre : List Event)
    (h : StepsTo c t) :
    StepsTo ⟨pre ++ c.trace, c.res⟩ (pre ++ t) := by
  constructor
  · intro hok
    rw [h.1 hok]
  · obtain ⟨n, hn, hct⟩ := h.2
    refine ⟨pre.length + n, ?_, ?_⟩
    · simp only [List.length_append]
      omega
    · rw [hct, List.take_append]

theorem stepsTo_withContext {c : Comp Unit} {t : List Event}
    (h : StepsTo c t) (s : String) :
    StepsTo (c.withContext s) t := by
  obtain ⟨tc, rc⟩ := c
  cases rc with
  | ok a => exact h
  | err e =>
    refine ⟨fun hok => absurd hok (by simp [Comp.withContext]), ?_⟩
    obtain ⟨n, hn, hct⟩ := h.2
    exact ⟨n, hn, hct⟩
  | panicked => exact h

theorem stepsTo_handshake (env : Env) :
    StepsTo (handshake env)
      [.setDumpable true, .sendIdMappingRequest, .recvMappingAck,
       .setDumpable false] := by
  have h := stepsTo_andThen (stepsTo_opUnwrap (env.setDumpable true) (.setDumpable true))
    (stepsTo_andThen (stepsTo_opErr env.identifierMappingRequest .sendIdMappingRequest)
      (stepsTo_andThen (stepsTo_opErr env.waitForMappingAck .recvMappingAck)
        (stepsTo_opUnwrap (env.setDumpable false) (.setDumpable false))))
  simpa [handshake] using h

theorem stepsTo_userNsStage (env : Env) (nss : Namespaces) :
    StepsTo (userNsStage env nss) (userNsTrace nss) := by
  unfold userNsStage userNsTrace
  cases nss.get .user with
  | none => exact stepsTo_pure
  | some u =>
    obtain ⟨utyp, upath⟩ := u
    cases upath with
    | none =>
      have h := stepsTo_andThen
        (stepsTo_opCtx (env.unshareOrSetns ⟨utyp, none⟩) (.enterNs ⟨utyp, none⟩)
          ("Failed to enter user namespace: " ++ nsDebug ⟨utyp, none⟩))
        (stepsTo_andThen (stepsTo_handshake env)
          (stepsTo_opCtx env.setId (.setId 0 0)
            "Failed to configure uid and gid root in the beginning of a new user namespace"))
      simpa using h
    | some p =>
      have h := stepsTo_andThen
        (stepsTo_opCtx (env.unshareOrSetns ⟨utyp, some p⟩) (.enterNs ⟨utyp, some p⟩)
          ("Failed to enter user namespace: " ++ nsDebug ⟨utyp, some p⟩))
        (stepsTo_andThen stepsTo_pure
          (stepsTo_opCtx env.setId (.setId 0 0)
            "Failed to configure uid and gid root in the beginning of a new user namespace"))
      simpa using h

theorem stepsTo_applyRlimits (env : Env) (l : List Rlimit) :
    StepsTo (applyRlimits env l) (l.map fun r => Event.setRlimit r) := by
  induction l with
  | nil => exact stepsTo_pure
  | cons r rest ih =>
    have h := stepsTo_andThen
      (stepsTo_opCtx (env.setRlimit r) (.setRlimit r) "failed to set rlimit") ih
    simpa [applyRlimits] using h

theorem stepsTo_rlimitStage (env : Env) (proc : ProcessSpec) :
    StepsTo (rlimitStage env proc) (rlimitTrace proc) := by
  unfold rlimitStage rlimitTrace
  cases proc.rlimits with
  | none => exact stepsTo_pure
  | some l => exact stepsTo_applyRlimits env l

theorem stepsTo_pidNsStage (env : Env) (nss : Namespaces) :
    StepsTo (pidNsStage env nss) (pidNsTrace nss) := by
  unfold pidNsStage pidNsTrace
  cases nss.get .pid with
  | none => exact stepsTo_pure
  | some p =>
    exact stepsTo_opCtx (env.unshareOrSetns p) (.enterNs p)
      ("Failed to enter pid namespace: " ++ nsDebug p)

theorem stepsTo_apply_cgroups (env : Env) (resources : Option LinuxResources)
    (init : Bool) :
    StepsTo (apply_cgroups env resources init)
      (applyCgroupsTrace env resources init) := by
  unfold apply_cgroups applyCgroupsTrace
  cases env.myself with
  | error s => exact stepsTo_errNil _
  | ok pid =>
    cases resources with
    | some r =>
      cases init with
      | true =>
        have h := stepsTo_andThen
          (stepsTo_opCtx env.addTask (.addTask pid)
            ("failed to add task " ++ toString pid ++ " to cgroup manager"))
          (stepsTo_opCtx env.applyResources .applyResources
            "failed to apply resource limits to cgroup")
        simpa using h
      | false =>
        have h := stepsTo_andThen
          (stepsTo_opCtx env.addTask (.addTask pid)
            ("failed to add task " ++ toString pid ++ " to cgroup manager"))
          stepsTo_pure
        simpa using h
    | none =>
      have h := stepsTo_andThen
        (stepsTo_opCtx env.addTask (.addTask pid)
          ("failed to add task " ++ toString pid ++ " to cgroup manager"))
        stepsTo_pure
      simpa using h

theorem stepsTo_cgroupsStage (env : Env) (args : ContainerArgs)
    (linux : LinuxSpec) :
    StepsTo (cgroupsStage env args linux) (cgroupsTrace env args linux) := by
  unfold cgroupsStage cgroupsTrace
  cases args.rootless with
  | none =>
    exact stepsTo_withContext (stepsTo_apply_cgroups env linux.resources args.init) _
  | some u => exact stepsTo_pure

theorem stepsTo_postFork (env : Env) (pid : Int) :
    StepsTo (postFork env pid)
      [.closeIntermediateSender, .closeInitSender, .recvInitReady,
       .sendIntermediateReady pid] := by
  have h := stepsTo_andThen
    (stepsTo_opCtx env.closeIntermediateSender .closeIntermediateSender
      "failed to close sender in the intermediate process")
    (stepsTo_andThen
      (stepsTo_opCtx env.closeInitSender .closeInitSender
        "failed to close unused init sender")
      (stepsTo_andThen
        (stepsTo_opCtx env.waitForInitReady .recvInitReady
          "failed to wait for the child")
        (stepsTo_opCtx env.intermediateReady (.sendIntermediateReady pid)
          "failed to send child ready from intermediate process")))
  simpa [postFork] using h

theorem stepsTo_final (env : Env) :
    StepsTo ((initChannelComp env).andThen
      (Comp.bindInt (forkComp env) (postFork env))) (finalTrace env) := by
  unfold initChannelComp forkComp finalTrace
  cases env.initChannel with
  | some s =>
    refine ⟨fun hok => absurd hok (by simp [Comp.andThen]), 0, Nat.zero_le _, ?_⟩
    simp [Comp.andThen]
  | none =>
    cases env.fork with
    | error s =>
      refine ⟨fun hok => absurd hok (by simp [Comp.andThen, Comp.bindInt]), 1, ?_, ?_⟩
      · simp
      · simp [Comp.andThen, Comp.bindInt]
    | ok pid =>
      have h := stepsTo_seq [.createInitChannel, .forkInit pid] (stepsTo_postFork env pid)
      exact h

/-- True exactly on cgroup-manager `apply` invocations. -/
def isApplyEv : Event → Bool
  | .applyResources => true
  | _ => false

/-- True exactly on cgroup-manager `add_task` invocations. -/
def isAddTaskEv : Event → Bool
  | .addTask _ => true
  | _ => false

/-- True exactly on `set_rlimit` invocations. -/
def isSetRlimitEv : Event → Bool
  | .setRlimit _ => true
  | _ => false

/-- True exactly on `IntermediateReady` sends. -/
def isSendReadyEv : Event → Bool
  | .sendIntermediateReady _ => true
  | _ => false

theorem stepsTo_container (env : Env) (args : ContainerArgs) :
    StepsTo (container_intermediate env args) (expectedTrace env args) := by
  obtain ⟨⟨lin, prc⟩, ini, rt⟩ := args
  unfold container_intermediate expectedTrace
  cases lin with
  | none => exact stepsTo_errNil _
  | some linux =>
    cases prc with
    | none =>
      have h := stepsTo_andThen
        (stepsTo_userNsStage env (Namespaces.fromList linux.namespaces))
        (stepsTo_errNil (.msg "no process in spec"))
      simpa using h
    | some proc =>
      exact stepsTo_andThen
        (stepsTo_userNsStage env (Namespaces.fromList linux.namespaces))
        (stepsTo_andThen (stepsTo_rlimitStage env proc)
          (stepsTo_andThen
            (stepsTo_pidNsStage env (Namespaces.fromList linux.namespaces))
            (stepsTo_andThen
              (stepsTo_cgroupsStage env ⟨⟨some linux, some proc⟩, ini, rt⟩ linux)
              (stepsTo_final env))))

theorem opCtx_trace (r : Option String) (ev : Event) (c : String) :
    (opCtx r ev c).trace = [ev] := by
  cases r <;> rfl

theorem opErr_trace (r : Option String) (ev : Event) :
    (opErr r ev).trace = [ev] := by
  cases r <;> rfl

theorem opUnwrap_trace (r : Option String) (ev : Event) :
    (opUnwrap r ev).trace = [ev] := by
  cases r <;> rfl

/-! ### Claim C2 -/

/-- Claim C2: in every call to `apply_cgroups`, the cgroup manager's
`apply` operation is invoked if and only if resources are present and
`init` is true.  It is never invoked — in any run, successful or not —
when `init` is false or when resources are absent; and when both hold it
is invoked exactly once, provided the preceding own-pid lookup and
`add_task` succeeded (an earlier failure aborts the call). -/
theorem C2_apply_cgroups_apply_iff (env : Env)
    (resources : Option LinuxResources) (init : Bool) :
    (resources = none ∨ init = false →
      (apply_cgroups env resources init).trace.filter isApplyEv = []) ∧
    (∀ p, env.myself = .ok p → env.addTask = none → resources ≠ none →
      init = true →
      (apply_cgroups env resources init).trace.filter isApplyEv =
        [.applyResources]) := by
  constructor
  · intro h
    rcases hmy : env.myself with s | p
    · simp [apply_cgroups, hmy]
    · rcases ht : env.addTask with _ | s
      · rcases h with rfl | rfl
        · cases init <;> simp [apply_cgroups, hmy, ht, opCtx, Comp.andThen, isApplyEv]
        · cases resources <;>
            simp [apply_cgroups, hmy, ht, opCtx, Comp.andThen, isApplyEv]
      · rcases h with rfl | rfl
        · cases init <;> simp [apply_cgroups, hmy, ht, opCtx, Comp.andThen, isApplyEv]
        · cases resources <;>
            simp [apply_cgroups, hmy, ht, opCtx, Comp.andThen, isApplyEv]
  · intro p hmy ht hr hi
    rcases resources with _ | r
    · exact absurd rfl hr
    · subst hi
      rcases ha : env.applyResources with _ | s <;>
        simp [apply_cgroups, hmy, ht, ha, opCtx, Comp.andThen, isApplyEv]

/-! ### Claim C7 -/

/-- Claim C7: every call to `apply_cgroups` invokes `add_task` exactly
once, with the calling process's own pid, regardless of whether resources
are present and regardless of the `init` flag.  The hypothesis is that the
own-pid lookup (`Process::myself()`) succeeded; if it fails the call
aborts before any manager operation. -/
theorem C7_add_task_once (env : Env) (resources : Option LinuxResources)
    (init : Bool) (p : Int) (hmy : env.myself = .ok p) :
    (apply_cgroups env resources init).trace.filter isAddTaskEv =
      [.addTask p] := by
  rcases ht : env.addTask with _ | s
  · rcases resources with _ | r <;> cases init <;>
      rcases ha : env.applyResources with _ | s <;>
      simp [apply_cgroups, hmy, ht, ha, opCtx, Comp.andThen, isAddTaskEv, isApplyEv]
  · rcases resources with _ | r <;> cases init <;>
      simp [apply_cgroups, hmy, ht, opCtx, Comp.andThen, isAddTaskEv]

/-! ### Claim C3 -/

/-- Claim C3: the PID-limit controller writes, to `pids.max`, the decimal
string of the limit when the limit is positive, and exactly the literal
string "max" when the limit is zero or negative; the written value is
never a zero or negative numeral. -/
theorem C3_pids_limit_value (pids : LinuxPids) :
    (∀ env root_path, (Pids.apply env root_path pids).1 =
      [.writeFile (root_path ++ ["pids.max"]) (pidsFileValue pids)]) ∧
    (0 < pids.limit → pidsFileValue pids = toString pids.limit) ∧
    (pids.limit ≤ 0 → pidsFileValue pids = "max") ∧
    (pidsFileValue pids = "max" ∨
      ∃ n : Nat, 0 < n ∧ pidsFileValue pids = toString n) := by
  have hpos : 0 < pids.limit → pidsFileValue pids = toString pids.limit := by
    intro h
    simp [pidsFileValue, h]
  have hneg : pids.limit ≤ 0 → pidsFileValue pids = "max" := by
    intro h
    rw [pidsFileValue, if_neg (by omega)]
  refine ⟨?_, hpos, hneg, ?_⟩
  · intro env root_path
    unfold Pids.apply write_cgroup_file_str
    cases env.writeFile (root_path ++ ["pids.max"]) (pidsFileValue pids) <;> rfl
  · by_cases h : 0 < pids.limit
    · obtain ⟨n, hn⟩ : ∃ n : Nat, pids.limit = (n : Int) :=
        ⟨pids.limit.toNat, by omega⟩
      refine Or.inr ⟨n, by omega, ?_⟩
      rw [hpos h, hn]
      rfl
    · exact Or.inl (hneg (by omega))

/-- Witness for C3 at the concrete limits 1000 and 0. -/
theorem C3_pids_limit_value_witness :
    pidsFileValue ⟨1000⟩ = "1000" ∧ pidsFileValue ⟨0⟩ = "max" :=
  ⟨(C3_pids_limit_value ⟨1000⟩).2.1 (by decide),
   (C3_pids_limit_value ⟨0⟩).2.2.1 (by decide)⟩

/-! ### Claim C10 -/

theorem pidsmax_ne_procs (root : FsPath) :
    root ++ ["pids.max"] ≠ root ++ [CGROUP_PROCS] := by
  intro h
  have h2 := List.append_cancel_left h
  injection h2 with h3 h4
  exact absurd h3 (by decide)

/-- Claim C10: when no pids resource is present, the only filesystem
effects of the Pids `Controller::apply` are creating the cgroup root
directory hierarchy and writing the target pid to the `cgroup.procs`
membership file; the `pids.max` file is never written, in any run. -/
theorem C10_controller_no_pids_frame (env : FsEnv) (lr : LinuxResources)
    (root : FsPath) (pid : Int) (hnone : lr.pids = none) :
    ((Pids.controllerApply env lr root pid).2 = .ok () →
      (Pids.controllerApply env lr root pid).1 =
        [.createDirAll root, .writeFile (root ++ [CGROUP_PROCS]) (toString pid)]) ∧
    (∀ e ∈ (Pids.controllerApply env lr root pid).1,
      e = .createDirAll root ∨
        e = .writeFile (root ++ [CGROUP_PROCS]) (toString pid)) ∧
    (∀ c, FsEffect.writeFile (root ++ ["pids.max"]) c ∉
      (Pids.controllerApply env lr root pid).1) := by
  rcases hc : env.createDirAll root with _ | s
  · rcases hw : env.writeFile (root ++ [CGROUP_PROCS]) (toString pid) with _ | m
    · refine ⟨fun _ => ?_, ?_, ?_⟩
      · simp [Pids.controllerApply, hnone, hc, hw, write_cgroup_file,
          write_cgroup_file_str]
      · intro e he
        simp [Pids.controllerApply, hnone, hc, hw, write_cgroup_file,
          write_cgroup_file_str] at he
        tauto
      · intro c hmem
        rw [show (Pids.controllerApply env lr root pid).1 =
            [FsEffect.createDirAll root,
             FsEffect.writeFile (root ++ [CGROUP_PROCS]) (toString pid)] from by
          simp [Pids.controllerApply, hnone, hc, hw, write_cgroup_file,
            write_cgroup_file_str]] at hmem
        rw [List.mem_cons, List.mem_singleton] at hmem
        rcases hmem with h | h
        · exact FsEffect.noConfusion h
        · injection h with h1 h2
          exact pidsmax_ne_procs root h1
    · refine ⟨fun hok => ?_, ?_, ?_⟩
      · exact absurd hok (by simp [Pids.controllerApply, hnone, hc, hw,
          write_cgroup_file, write_cgroup_file_str])
      · intro e he
        simp [Pids.controllerApply, hnone, hc, hw, write_cgroup_file,
          write_cgroup_file_str] at he
        tauto
      · intro c hmem
        rw [show (Pids.controllerApply env lr root pid).1 =
            [FsEffect.createDirAll root,
             FsEffect.writeFile (root ++ [CGROUP_PROCS]) (toString pid)] from by
          simp [Pids.controllerApply, hnone, hc, hw, write_cgroup_file,
            write_cgroup_file_str]] at hmem
        rw [List.mem_cons, List.mem_singleton] at hmem
        rcases hmem with h | h
        · exact FsEffect.noConfusion h
        · injection h with h1 h2
          exact pidsmax_ne_procs root h1
  · refine ⟨fun hok => ?_, ?_, ?_⟩
    · exact absurd hok (by simp [Pids.controllerApply, hnone, hc])
    · intro e he
      simp [Pids.controllerApply, hnone, hc] at he
      exact Or.inl he
    · intro c hmem
      simp [Pids.controllerApply, hnone, hc] at hmem

/-! ### Concrete fixtures for witnesses and counterexamples -/

/-- An environment in which every external operation succeeds: the own-pid
lookup yields 10, the fork returns pid 42, and the init-stage process
would self-identify as pid 7. -/
def envOk : Env :=
  ⟨fun _ => none, fun _ => none, none, none, none, fun _ => none, .ok 10,
   none, none, none, .ok 42, none, none, none, none, 7⟩

/-- A newly created user namespace (no join path). -/
def userNsNew : LinuxNamespace := ⟨.user, none⟩

/-- A newly created pid namespace (no join path). -/
def pidNsNew : LinuxNamespace := ⟨.pid, none⟩

/-- A sample rlimit descriptor. -/
def rlimitNoFile : Rlimit := ⟨"RLIMIT_NOFILE", 1024, 1024⟩

/-- Another sample rlimit descriptor, distinct from `rlimitNoFile`. -/
def rlimitNproc : Rlimit := ⟨"RLIMIT_NPROC", 64, 64⟩

/-- Arguments with new user and pid namespaces, one rlimit, resources
present, initial creation, not rootless. -/
def argsFull : ContainerArgs :=
  ⟨⟨some ⟨some [userNsNew, pidNsNew], some ⟨none⟩⟩,
    some ⟨some [rlimitNoFile]⟩⟩, true, none⟩

/-- A filesystem environment in which every operation succeeds. -/
def fsOk : FsEnv := ⟨fun _ => none, fun _ _ => none⟩

/-- Witness for C2: with resources present and `init = true` the manager
apply is invoked exactly once; with `init = false` it is not invoked. -/
theorem C2_apply_cgroups_apply_iff_witness :
    (apply_cgroups envOk (some ⟨none⟩) true).trace.filter isApplyEv =
      [.applyResources] ∧
    (apply_cgroups envOk (some ⟨none⟩) false).trace.filter isApplyEv = [] :=
  ⟨(C2_apply_cgroups_apply_iff envOk (some ⟨none⟩) true).2 10 rfl rfl
      (by decide) rfl,
   (C2_apply_cgroups_apply_iff envOk (some ⟨none⟩) false).1 (Or.inr rfl)⟩

/-- Witness for C7 at a concrete call with no resources and a tenant
(`init = false`) flag: add_task is still invoked exactly once with the own
pid 10. -/
theorem C7_add_task_once_witness :
    (apply_cgroups envOk none false).trace.filter isAddTaskEv =
      [.addTask 10] :=
  C7_add_task_once envOk none false 10 rfl

/-- Witness for C10 at a concrete root and pid. -/
theorem C10_controller_no_pids_frame_witness :
    (Pids.controllerApply fsOk ⟨none⟩ ["sys"] 99).1 =
      [.createDirAll ["sys"],
       .writeFile (["sys"] ++ [CGROUP_PROCS]) (toString (99 : Int))] :=
  (C10_controller_no_pids_frame fsOk ⟨none⟩ ["sys"] 99 rfl).1 rfl

/-! ### Panic characterization: only the dumpable toggles can panic -/

theorem opErr_no_panic (r : Option String) (ev : Event) :
    (opErr r ev).res ≠ .panicked := by
  cases r <;> simp [opErr]

theorem opCtx_no_panic (r : Option String) (ev : Event) (c : String) :
    (opCtx r ev c).res ≠ .panicked := by
  cases r <;> simp [opCtx]

theorem opUnwrap_no_panic {r : Option String} (h : r = none) (ev : Event) :
    (opUnwrap r ev).res ≠ .panicked := by
  subst h
  simp [opUnwrap]

theorem pure_no_panic : (⟨[], .ok ()⟩ : Comp Unit).res ≠ .panicked := by
  simp

theorem errNil_no_panic (e : Err) : (⟨[], .err e⟩ : Comp Unit).res ≠ .panicked := by
  simp

theorem andThen_no_panic {c d : Comp Unit} (hc : c.res ≠ .panicked)
    (hd : d.res ≠ .panicked) : (c.andThen d).res ≠ .panicked := by
  obtain ⟨t, r⟩ := c
  cases r with
  | ok a => simpa [Comp.andThen] using hd
  | err e => simp [Comp.andThen]
  | panicked => exact absurd rfl hc

theorem withContext_no_panic {c : Comp Unit} (h : c.res ≠ .panicked)
    (s : String) : (c.withContext s).res ≠ .panicked := by
  obtain ⟨t, r⟩ := c
  cases r with
  | ok a => simp [Comp.withContext]
  | err e => simp [Comp.withContext]
  | panicked => exact absurd rfl h

theorem handshake_no_panic (env : Env) (h1 : env.setDumpable true = none)
    (h2 : env.setDumpable false = none) : (handshake env).res ≠ .panicked := by
  unfold handshake
  exact andThen_no_panic (opUnwrap_no_panic h1 _)
    (andThen_no_panic (opErr_no_panic _ _)
      (andThen_no_panic (opErr_no_panic _ _) (opUnwrap_no_panic h2 _)))

theorem userNsStage_no_panic (env : Env) (nss : Namespaces)
    (h1 : env.setDumpable true = none) (h2 : env.setDumpable false = none) :
    (userNsStage env nss).res ≠ .panicked := by
  unfold userNsStage
  cases nss.get .user with
  | none => exact pure_no_panic
  | some u =>
    obtain ⟨utyp, upath⟩ := u
    cases upath with
    | none =>
      exact andThen_no_panic (opCtx_no_panic _ _ _)
        (andThen_no_panic (handshake_no_panic env h1 h2) (opCtx_no_panic _ _ _))
    | some p =>
      exact andThen_no_panic (opCtx_no_panic _ _ _)
        (andThen_no_panic pure_no_panic (opCtx_no_panic _ _ _))

theorem applyRlimits_no_panic (env : Env) (l : List Rlimit) :
    (applyRlimits env l).res ≠ .panicked := by
  induction l with
  | nil => exact pure_no_panic
  | cons r rest ih =>
    exact andThen_no_panic (opCtx_no_panic _ _ _) ih

theorem rlimitStage_no_panic (env : Env) (proc : ProcessSpec) :
    (rlimitStage env proc).res ≠ .panicked := by
  unfold rlimitStage
  cases proc.rlimits with
  | none => exact pure_no_panic
  | some l => exact applyRlimits_no_panic env l

theorem pidNsStage_no_panic (env : Env) (nss : Namespaces) :
    (pidNsStage env nss).res ≠ .panicked := by
  unfold pidNsStage
  cases nss.get .pid with
  | none => exact pure_no_panic
  | some p => exact opCtx_no_panic _ _ _

theorem apply_cgroups_no_panic (env : Env) (resources : Option LinuxResources)
    (init : Bool) : (apply_cgroups env resources init).res ≠ .panicked := by
  unfold apply_cgroups
  cases env.myself with
  | error s => exact errNil_no_panic _
  | ok pid =>
    refine andThen_no_panic (opCtx_no_panic _ _ _) ?_
    cases resources with
    | none => exact pure_no_panic
    | some r =>
      cases init with
      | true => exact opCtx_no_panic _ _ _
      | false => exact pure_no_panic

theorem cgroupsStage_no_panic (env : Env) (args : ContainerArgs)
    (linux : LinuxSpec) : (cgroupsStage env args linux).res ≠ .panicked := by
  unfold cgroupsStage
  cases args.rootless with
  | none =>
    exact withContext_no_panic (apply_cgroups_no_panic env linux.resources args.init) _
  | some u => exact pure_no_panic

theorem final_no_panic (env : Env) :
    ((initChannelComp env).andThen
      (Comp.bindInt (forkComp env) (postFork env))).res ≠ .panicked := by
  have hpost : ∀ pid, (postFork env pid).res ≠ .panicked := by
    intro pid
    unfold postFork
    exact andThen_no_panic (opCtx_no_panic _ _ _)
      (andThen_no_panic (opCtx_no_panic _ _ _)
        (andThen_no_panic (opCtx_no_panic _ _ _) (opCtx_no_panic _ _ _)))
  unfold initChannelComp forkComp
  cases env.initChannel with
  | some s => simp [Comp.andThen, Comp.bindInt]
  | none =>
    cases env.fork with
    | error s => simp [Comp.andThen, Comp.bindInt]
    | ok pid => simpa [Comp.andThen, Comp.bindInt] using hpost pid

theorem container_no_panic (env : Env) (args : ContainerArgs)
    (h1 : env.setDumpable true = none) (h2 : env.setDumpable false = none) :
    (container_intermediate env args).res ≠ .panicked := by
  obtain ⟨⟨lin, prc⟩, ini, rt⟩ := args
  unfold container_intermediate
  cases lin with
  | none => exact errNil_no_panic _
  | some linux =>
    refine andThen_no_panic (userNsStage_no_panic env _ h1 h2) ?_
    cases prc with
    | none => exact errNil_no_panic _
    | some proc =>
      exact andThen_no_panic (rlimitStage_no_panic env proc)
        (andThen_no_panic (pidNsStage_no_panic env _)
          (andThen_no_panic (cgroupsStage_no_panic env _ linux)
            (final_no_panic env)))

/-! ### Claim C1 -/

/-- Claim C1 (amended): every successful run of `container_intermediate`
performs exactly the steps of `expectedTrace` in that total order —
user-namespace entry (with the optional mapping handshake, then forcing
identity to namespace root), rlimits, pid-namespace entry, cgroup
attachment when not rootless, the init fork, the `InitReady` wait and the
`IntermediateReady` send; every run's trace, successful or not, is an
initial segment of that order, so a failing step never lets a later step
run; and as long as the two dumpable toggles succeed, a failure is
returned as an error rather than panicking (a failing dumpable toggle is
the one step whose failure panics instead). -/
theorem C1_intermediate_order (env : Env) (args : ContainerArgs) :
    ((container_intermediate env args).res = .ok () →
      (container_intermediate env args).trace = expectedTrace env args) ∧
    (∃ n, n ≤ (expectedTrace env args).length ∧
      (container_intermediate env args).trace =
        (expectedTrace env args).take n) ∧
    (env.setDumpable true = none → env.setDumpable false = none →
      (container_intermediate env args).res ≠ .panicked) :=
  ⟨(stepsTo_container env args).1, (stepsTo_container env args).2,
   fun h1 h2 => container_no_panic env args h1 h2⟩

/-- Witness for C1: in the all-success environment the run succeeds and
its trace is exactly the expected ordered trace. -/
theorem C1_intermediate_order_witness :
    (container_intermediate envOk argsFull).trace =
      expectedTrace envOk argsFull :=
  (C1_intermediate_order envOk argsFull).1 rfl

/-- Environment in which marking the process dumpable fails and everything
else succeeds. -/
def envDumpFailT : Env :=
  ⟨fun _ => none, fun b => if b then some "EPERM" else none, none, none,
   none, fun _ => none, .ok 10, none, none, none, .ok 42, none, none, none,
   none, 7⟩

/-- Counterexample to C1 as stated: in this run the dumpable-toggle
sub-step of the handshake fails, and `container_intermediate` does not
return that error to its caller — the run panics, returning nothing. -/
theorem C1_intermediate_order_counterexample :
    envDumpFailT.setDumpable true = some "EPERM" ∧
    (container_intermediate envDumpFailT argsFull).res = .panicked ∧
    ∀ e, (container_intermediate envDumpFailT argsFull).res ≠ .err e := by
  refine ⟨rfl, rfl, ?_⟩
  intro e h
  rw [show (container_intermediate envDumpFailT argsFull).res = .panicked
    from rfl] at h
  exact Res.noConfusion h

/-! ### Claim C9 -/

/-- Claim C9 (amended): every failure of the bootstrap other than a
failure of the dumpable-flag toggle is returned to the immediate caller
as an error value; whenever the two dumpable toggles succeed, every run
ends in success or in an error return, never in a panic. -/
theorem C9_error_return (env : Env) (args : ContainerArgs)
    (h1 : env.setDumpable true = none) (h2 : env.setDumpable false = none) :
    (container_intermediate env args).res = .ok () ∨
      ∃ e, (container_intermediate env args).res = .err e := by
  have h := container_no_panic env args h1 h2
  rcases hr : (container_intermediate env args).res with a | e | _
  · cases a
    exact Or.inl rfl
  · exact Or.inr ⟨e, rfl⟩
  · exact absurd hr h

/-- Witness for C9: in the all-success environment the dumpable toggles
succeed and the run ends in success or an error return. -/
theorem C9_error_return_witness :
    (container_intermediate envOk argsFull).res = .ok () ∨
      ∃ e, (container_intermediate envOk argsFull).res = .err e :=
  C9_error_return envOk argsFull rfl rfl

/-- Environment in which clearing the dumpable flag (the second toggle)
fails and everything else succeeds. -/
def envDumpFailF : Env :=
  ⟨fun _ => none, fun b => if b then none else some "EPERM", none, none,
   none, fun _ => none, .ok 10, none, none, none, .ok 42, none, none, none,
   none, 7⟩

/-- Counterexample to C9 as stated: a failure of the dumpable-flag toggle
during the handshake does not produce an error return — the run panics. -/
theorem C9_error_return_counterexample :
    envDumpFailF.setDumpable false = some "EPERM" ∧
    (container_intermediate envDumpFailF argsFull).res = .panicked ∧
    ∀ e, (container_intermediate envDumpFailF argsFull).res ≠ .err e := by
  refine ⟨rfl, rfl, ?_⟩
  intro e h
  rw [show (container_intermediate envDumpFailF argsFull).res = .panicked
    from rfl] at h
  exact Res.noConfusion h

/-! ### Shape of the expected trace, segment by segment -/

theorem trace_subset_expected (env : Env) (args : ContainerArgs) :
    ∀ e ∈ (container_intermediate env args).trace, e ∈ expectedTrace env args := by
  obtain ⟨n, hn, ht⟩ := (stepsTo_container env args).2
  intro e he
  rw [ht] at he
  exact List.take_subset n _ he

theorem userNsTrace_shape {nss : Namespaces} {e : Event}
    (h : e ∈ userNsTrace nss) :
    (∃ ns, e = .enterNs ns) ∨ e = .setDumpable true ∨
      e = .sendIdMappingRequest ∨ e = .recvMappingAck ∨
      e = .setDumpable false ∨ e = .setId 0 0 := by
  unfold userNsTrace at h
  rcases hu : nss.get .user with _ | u <;> rw [hu] at h
  · simp at h
  · obtain ⟨utyp, upath⟩ := u
    cases upath with
    | none =>
      simp at h
      rcases h with h | h | h | h | h | h
      · exact Or.inl ⟨_, h⟩
      all_goals tauto
    | some p =>
      simp at h
      rcases h with h | h
      · exact Or.inl ⟨_, h⟩
      · tauto

theorem userNsTrace_joined_shape {nss : Namespaces} {u : LinuxNamespace}
    {pth : String} (hu : nss.get .user = some u) (hp : u.path = some pth)
    {e : Event} (h : e ∈ userNsTrace nss) :
    e = .enterNs u ∨ e = .setId 0 0 := by
  unfold userNsTrace at h
  rw [hu] at h
  obtain ⟨utyp, upath⟩ := u
  cases hp
  simpa using h

theorem rlimitTrace_shape {proc : ProcessSpec} {e : Event}
    (h : e ∈ rlimitTrace proc) : ∃ r, e = .setRlimit r := by
  unfold rlimitTrace at h
  simp only [List.mem_map] at h
  obtain ⟨r, _, hr⟩ := h
  exact ⟨r, hr.symm⟩

theorem pidNsTrace_shape {nss : Namespaces} {e : Event}
    (h : e ∈ pidNsTrace nss) : ∃ ns, e = .enterNs ns := by
  unfold pidNsTrace at h
  rcases hp : nss.get .pid with _ | p <;> rw [hp] at h
  · simp at h
  · simp at h
    exact ⟨p, h⟩

theorem cgroupsTrace_shape {env : Env} {args : ContainerArgs}
    {linux : LinuxSpec} {e : Event} (h : e ∈ cgroupsTrace env args linux) :
    (∃ p, e = .addTask p) ∨ e = .applyResources := by
  unfold cgroupsTrace applyCgroupsTrace at h
  rcases hr : args.rootless with _ | u <;> rw [hr] at h
  · rcases hm : env.myself with s | p <;> rw [hm] at h
    · simp at h
    · rcases List.mem_cons.mp h with h | h
      · exact Or.inl ⟨p, h⟩
      · rcases hres : linux.resources with _ | r
        · rw [hres] at h
          simp at h
        · rw [hres] at h
          rcases hini : args.init with _ | _
          · rw [hini] at h
            simp at h
          · rw [hini] at h
            simp at h
            exact Or.inr h
  · simp at h

theorem finalTrace_shape {env : Env} {e : Event} (h : e ∈ finalTrace env) :
    e = .createInitChannel ∨ (∃ p, e = .forkInit p) ∨
      e = .closeIntermediateSender ∨ e = .closeInitSender ∨
      e = .recvInitReady ∨ ∃ p, e = .sendIntermediateReady p := by
  unfold finalTrace at h
  rcases hf : env.fork with s | p <;> rw [hf] at h
  · simp at h
    exact Or.inl h
  · simp at h
    rcases h with h | h | h | h | h | h
    · exact Or.inl h
    · exact Or.inr (Or.inl ⟨_, h⟩)
    · tauto
    · tauto
    · tauto
    · exact Or.inr (Or.inr (Or.inr (Or.inr (Or.inr ⟨_, h⟩))))

theorem andThen_of_ok {c : Comp Unit} (d : Comp Unit) (h : c.res = .ok ()) :
    c.andThen d = ⟨c.trace ++ d.trace, d.res⟩ := by
  obtain ⟨t, r⟩ := c
  cases r with
  | ok a => cases a; rfl
  | err e => exact absurd h (by simp)
  | panicked => exact absurd h (by simp)

theorem andThen_err_ne_ok {c : Comp Unit} {t : List Event} {e : Err} :
    (c.andThen ⟨t, .err e⟩).res ≠ .ok () := by
  obtain ⟨tc, rc⟩ := c
  cases rc <;> simp [Comp.andThen]

theorem ok_linux_process {env : Env} {args : ContainerArgs}
    (h : (container_intermediate env args).res = .ok ()) :
    ∃ linux proc, args.spec.linux = some linux ∧
      args.spec.process = some proc := by
  obtain ⟨⟨lin, prc⟩, ini, rt⟩ := args
  cases lin with
  | none => exact absurd h (by simp [container_intermediate])
  | some linux =>
    cases prc with
    | none => exact absurd h (by exact andThen_err_ne_ok)
    | some proc => exact ⟨linux, proc, rfl, rfl⟩

theorem expected_mem_cases {env : Env} {args : ContainerArgs}
    {linux : LinuxSpec} (hl : args.spec.linux = some linux) {e : Event}
    (h : e ∈ expectedTrace env args) :
    e ∈ userNsTrace (Namespaces.fromList linux.namespaces) ∨
      (∃ r, e = .setRlimit r) ∨ (∃ ns, e = .enterNs ns) ∨
      e ∈ cgroupsTrace env args linux ∨ e ∈ finalTrace env := by
  unfold expectedTrace at h
  rw [hl] at h
  rcases hp : args.spec.process with _ | proc <;> rw [hp] at h
  · simp at h
    exact Or.inl h
  · simp only [List.mem_append] at h
    rcases h with h | h | h | h | h
    · exact Or.inl h
    · exact Or.inr (Or.inl (rlimitTrace_shape h))
    · exact Or.inr (Or.inr (Or.inl (pidNsTrace_shape h)))
    · exact Or.inr (Or.inr (Or.inr (Or.inl h)))
    · exact Or.inr (Or.inr (Or.inr (Or.inr h)))

theorem cgroupsTrace_rootless {env : Env} {args : ContainerArgs}
    {linux : LinuxSpec} {u : Unit} (hr : args.rootless = some u) :
    cgroupsTrace env args linux = [] := by
  unfold cgroupsTrace
  rw [hr]

theorem userNsTrace_new (nss : Namespaces) (u : LinuxNamespace)
    (hu : nss.get .user = some u) (hp : u.path = none) :
    userNsTrace nss =
      Event.enterNs u ::
        ([.setDumpable true, .sendIdMappingRequest, .recvMappingAck,
          .setDumpable false] ++ [.setId 0 0]) := by
  unfold userNsTrace
  rw [hu]
  obtain ⟨utyp, upath⟩ := u
  cases hp
  rfl

/-! ### Claim C4 -/

/-- Claim C4: when a user namespace is newly created (no join path), the
handshake operations occur in every successful run in exactly the order
`set_dumpable(true)`, send `IdentifierMappingRequest`, receive
`MappingAck`, `set_dumpable(false)`; when the user namespace carries an
existing-namespace path, none of these four operations is ever performed,
in any run. -/
theorem C4_handshake_order (env : Env) (args : ContainerArgs)
    (linux : LinuxSpec) (u : LinuxNamespace)
    (hl : args.spec.linux = some linux)
    (hu : (Namespaces.fromList linux.namespaces).get .user = some u) :
    (∀ pth, u.path = some pth →
      Event.setDumpable true ∉ (container_intermediate env args).trace ∧
      Event.sendIdMappingRequest ∉ (container_intermediate env args).trace ∧
      Event.recvMappingAck ∉ (container_intermediate env args).trace ∧
      Event.setDumpable false ∉ (container_intermediate env args).trace) ∧
    (u.path = none → (container_intermediate env args).res = .ok () →
      ∃ pre post, (container_intermediate env args).trace =
        pre ++ [Event.setDumpable true, Event.sendIdMappingRequest,
          Event.recvMappingAck, Event.setDumpable false] ++ post) := by
  constructor
  · intro pth hp
    have key : ∀ e ∈ (container_intermediate env args).trace,
        e ≠ .setDumpable true ∧ e ≠ .sendIdMappingRequest ∧
        e ≠ .recvMappingAck ∧ e ≠ .setDumpable false := by
      intro e he
      have hexp := trace_subset_expected env args e he
      rcases expected_mem_cases hl hexp with h | h | h | h | h
      · rcases userNsTrace_joined_shape hu hp h with rfl | rfl <;>
          exact ⟨by simp, by simp, by simp, by simp⟩
      · obtain ⟨r, rfl⟩ := h
        exact ⟨by simp, by simp, by simp, by simp⟩
      · obtain ⟨ns, rfl⟩ := h
        exact ⟨by simp, by simp, by simp, by simp⟩
      · rcases cgroupsTrace_shape h with ⟨p, rfl⟩ | rfl <;>
          exact ⟨by simp, by simp, by simp, by simp⟩
      · rcases finalTrace_shape h with rfl | ⟨p, rfl⟩ | rfl | rfl | rfl | ⟨p, rfl⟩ <;>
          exact ⟨by simp, by simp, by simp, by simp⟩
    refine ⟨fun hmem => ?_, fun hmem => ?_, fun hmem => ?_, fun hmem => ?_⟩
    · exact (key _ hmem).1 rfl
    · exact (key _ hmem).2.1 rfl
    · exact (key _ hmem).2.2.1 rfl
    · exact (key _ hmem).2.2.2 rfl
  · intro hp hok
    obtain ⟨linux2, proc, hl2, hproc⟩ := ok_linux_process hok
    rw [hl] at hl2
    injection hl2 with hl2
    subst hl2
    refine ⟨[Event.enterNs u],
      Event.setId 0 0 ::
        (rlimitTrace proc ++
          (pidNsTrace (Namespaces.fromList linux.namespaces) ++
            (cgroupsTrace env args linux ++ finalTrace env))), ?_⟩
    rw [(stepsTo_container env args).1 hok]
    unfold expectedTrace
    simp only [hl, hproc]
    rw [userNsTrace_new _ _ hu hp]
    simp

/-- Witness for C4: in the all-success run with a newly created user
namespace, the four handshake operations appear in order, and with a
joined user namespace none of them appears. -/
theorem C4_handshake_order_witness :
    (∃ pre post, (container_intermediate envOk argsFull).trace =
      pre ++ [Event.setDumpable true, Event.sendIdMappingRequest,
        Event.recvMappingAck, Event.setDumpable false] ++ post) ∧
    Event.setDumpable true ∉
      (container_intermediate envOk
        ⟨⟨some ⟨some [⟨.user, some "/proc/1/ns/user"⟩], none⟩,
          some ⟨none⟩⟩, true, none⟩).trace :=
  ⟨(C4_handshake_order envOk argsFull ⟨some [userNsNew, pidNsNew], some ⟨none⟩⟩
      userNsNew rfl rfl).2 rfl rfl,
   ((C4_handshake_order envOk
      ⟨⟨some ⟨some [⟨.user, some "/proc/1/ns/user"⟩], none⟩, some ⟨none⟩⟩,
        true, none⟩
      ⟨some [⟨.user, some "/proc/1/ns/user"⟩], none⟩
      ⟨.user, some "/proc/1/ns/user"⟩ rfl rfl).1 "/proc/1/ns/user" rfl).1⟩

/-! ### Claim C6 -/

/-- Claim C6: in rootless mode no cgroup-manager operation happens in the
intermediate stage — neither `add_task` nor `apply` is invoked, in any
run; when not rootless, `apply_cgroups` runs with the current process's
pid as the attach target, visible in every successful run as the
`add_task` invocation carrying that pid. -/
theorem C6_rootless_skips_cgroups (env : Env) (args : ContainerArgs) :
    ((∃ u, args.rootless = some u) →
      (∀ p, Event.addTask p ∉ (container_intermediate env args).trace) ∧
      Event.applyResources ∉ (container_intermediate env args).trace) ∧
    (args.rootless = none → (container_intermediate env args).res = .ok () →
      ∀ p, env.myself = .ok p →
        Event.addTask p ∈ (container_intermediate env args).trace) := by
  constructor
  · rintro ⟨u, hr⟩
    have key : ∀ e ∈ (container_intermediate env args).trace,
        (∀ p, e ≠ Event.addTask p) ∧ e ≠ Event.applyResources := by
      intro e he
      have hexp := trace_subset_expected env args e he
      rcases hlin : args.spec.linux with _ | linux
      · rw [show expectedTrace env args = [] from by
          unfold expectedTrace; rw [hlin]] at hexp
        simp at hexp
      · rcases expected_mem_cases hlin hexp with h | h | h | h | h
        · rcases userNsTrace_shape h with ⟨ns, rfl⟩ | rfl | rfl | rfl | rfl | rfl <;>
            exact ⟨fun p => by simp, by simp⟩
        · obtain ⟨r, rfl⟩ := h
          exact ⟨fun p => by simp, by simp⟩
        · obtain ⟨ns, rfl⟩ := h
          exact ⟨fun p => by simp, by simp⟩
        · rw [cgroupsTrace_rootless hr] at h
          simp at h
        · rcases finalTrace_shape h with rfl | ⟨p, rfl⟩ | rfl | rfl | rfl | ⟨p, rfl⟩ <;>
            exact ⟨fun q => by simp, by simp⟩
    exact ⟨fun p hmem => (key _ hmem).1 p rfl, fun hmem => (key _ hmem).2 rfl⟩
  · intro hr hok p hmy
    obtain ⟨linux, proc, hl, hproc⟩ := ok_linux_process hok
    have hcg : Event.addTask p ∈ cgroupsTrace env args linux := by
      unfold cgroupsTrace applyCgroupsTrace
      simp only [hr, hmy]
      exact List.mem_cons_self _ _
    rw [(stepsTo_container env args).1 hok]
    unfold expectedTrace
    simp only [hl, hproc]
    simp only [List.mem_append]
    tauto

/-- Witness for C6: in the all-success non-rootless run the add_task
invocation with the own pid 10 appears; in the rootless variant no
add_task invocation appears at all. -/
theorem C6_rootless_skips_cgroups_witness :
    Event.addTask 10 ∈ (container_intermediate envOk argsFull).trace ∧
    Event.addTask 10 ∉
      (container_intermediate envOk
        ⟨argsFull.spec, true, some ()⟩).trace :=
  ⟨(C6_rootless_skips_cgroups envOk argsFull).2 rfl rfl 10 rfl,
   ((C6_rootless_skips_cgroups envOk ⟨argsFull.spec, true, some ()⟩).1
      ⟨(), rfl⟩).1 10⟩

/-! ### Claim C5 -/

theorem filter_sendReady_userNs (nss : Namespaces) :
    (userNsTrace nss).filter isSendReadyEv = [] := by
  rw [List.filter_eq_nil_iff]
  intro e he
  rcases userNsTrace_shape he with ⟨ns, rfl⟩ | rfl | rfl | rfl | rfl | rfl <;>
    simp [isSendReadyEv]

theorem filter_sendReady_rlimits (proc : ProcessSpec) :
    (rlimitTrace proc).filter isSendReadyEv = [] := by
  rw [List.filter_eq_nil_iff]
  intro e he
  obtain ⟨r, rfl⟩ := rlimitTrace_shape he
  simp [isSendReadyEv]

theorem filter_sendReady_pidNs (nss : Namespaces) :
    (pidNsTrace nss).filter isSendReadyEv = [] := by
  rw [List.filter_eq_nil_iff]
  intro e he
  obtain ⟨ns, rfl⟩ := pidNsTrace_shape he
  simp [isSendReadyEv]

theorem filter_sendReady_cgroups (env : Env) (args : ContainerArgs)
    (linux : LinuxSpec) :
    (cgroupsTrace env args linux).filter isSendReadyEv = [] := by
  rw [List.filter_eq_nil_iff]
  intro e he
  rcases cgroupsTrace_shape he with ⟨p, rfl⟩ | rfl <;> simp [isSendReadyEv]

theorem filter_sendReady_final {env : Env} {p : Int}
    (hf : env.fork = .ok p) :
    (finalTrace env).filter isSendReadyEv = [.sendIntermediateReady p] := by
  unfold finalTrace
  simp only [hf]
  rfl

/-- Claim C5 (amended): the `IntermediateReady` message always carries the
raw pid value returned by the fork call; the init-stage process's
self-identification is never consulted, also when a pid-namespace boundary
was crossed. -/
theorem C5_ready_carries_fork_pid (env : Env) (args : ContainerArgs)
    (p : Int) (hok : (container_intermediate env args).res = .ok ())
    (hf : env.fork = .ok p) :
    (container_intermediate env args).trace.filter isSendReadyEv =
      [.sendIntermediateReady p] := by
  obtain ⟨linux, proc, hl, hproc⟩ := ok_linux_process hok
  rw [(stepsTo_container env args).1 hok]
  unfold expectedTrace
  simp only [hl, hproc]
  simp only [List.filter_append, filter_sendReady_userNs,
    filter_sendReady_rlimits, filter_sendReady_pidNs,
    filter_sendReady_cgroups, filter_sendReady_final hf]
  simp

/-- Witness for C5 (amended) at the all-success run: the single
IntermediateReady send carries 42, the fork return value. -/
theorem C5_ready_carries_fork_pid_witness :
    (container_intermediate envOk argsFull).trace.filter isSendReadyEv =
      [.sendIntermediateReady 42] :=
  C5_ready_carries_fork_pid envOk argsFull 42 rfl rfl

/-- Counterexample to C5 as stated: a successful run that crosses a
pid-namespace boundary in which the sent pid is 42, the raw fork return
value, and is not the init-stage process's self-identification (7). -/
theorem C5_ready_carries_fork_pid_counterexample :
    (container_intermediate envOk argsFull).res = .ok () ∧
    (Namespaces.fromList (some [userNsNew, pidNsNew])).get .pid =
      some pidNsNew ∧
    envOk.fork = .ok 42 ∧
    envOk.initSelfPid = 7 ∧
    Event.sendIntermediateReady 42 ∈
      (container_intermediate envOk argsFull).trace ∧
    Event.sendIntermediateReady envOk.initSelfPid ∉
      (container_intermediate envOk argsFull).trace := by
  refine ⟨rfl, by decide, rfl, rfl, by decide, by decide⟩

/-! ### Claim C8 -/

theorem filter_setRlimit_userNs (nss : Namespaces) :
    (userNsTrace nss).filter isSetRlimitEv = [] := by
  rw [List.filter_eq_nil_iff]
  intro e he
  rcases userNsTrace_shape he with ⟨ns, rfl⟩ | rfl | rfl | rfl | rfl | rfl <;>
    simp [isSetRlimitEv]

theorem filter_setRlimit_map (l : List Rlimit) :
    ((l.map fun x => Event.setRlimit x).filter isSetRlimitEv) =
      l.map fun x => Event.setRlimit x := by
  rw [List.filter_eq_self]
  intro a ha
  simp only [List.mem_map] at ha
  obtain ⟨r, _, rfl⟩ := ha
  rfl

theorem applyRlimits_fail (env : Env) (l1 l2 : List Rlimit) (r : Rlimit)
    (m : String) (hok : ∀ x ∈ l1, env.setRlimit x = none)
    (hfail : env.setRlimit r = some m) :
    applyRlimits env (l1 ++ r :: l2) =
      ⟨(l1 ++ [r]).map (fun x => Event.setRlimit x),
       .err (.ctx "failed to set rlimit" (.msg m))⟩ := by
  induction l1 with
  | nil =>
    simp [applyRlimits, opCtx, hfail, Comp.andThen]
  | cons a t ih =>
    have ha := hok a (by simp)
    have ih2 := ih (fun x hx => hok x (by simp [hx]))
    simp [applyRlimits, opCtx, ha, Comp.andThen, ih2]

/-- Claim C8 (amended): rlimits are applied one at a time, in
specification order; the first rlimit whose application fails aborts the
bootstrap with the error context "failed to set rlimit" wrapped around
the syscall error message, and no rlimit after the failing one is
applied.  The error context is a fixed string, so it does not itself
identify the offending limit. -/
theorem C8_rlimit_order (env : Env) (args : ContainerArgs)
    (linux : LinuxSpec) (proc : ProcessSpec) (l1 l2 : List Rlimit)
    (r : Rlimit) (m : String)
    (hl : args.spec.linux = some linux)
    (hproc : args.spec.process = some proc)
    (hrl : proc.rlimits = some (l1 ++ r :: l2))
    (h1 : ∀ x ∈ l1, env.setRlimit x = none)
    (hfail : env.setRlimit r = some m)
    (huser : (userNsStage env (Namespaces.fromList linux.namespaces)).res =
      .ok ()) :
    (container_intermediate env args).res =
      .err (.ctx "failed to set rlimit" (.msg m)) ∧
    (container_intermediate env args).trace.filter isSetRlimitEv =
      (l1 ++ [r]).map (fun x => Event.setRlimit x) := by
  have hrstage : rlimitStage env proc =
      ⟨(l1 ++ [r]).map (fun x => Event.setRlimit x),
       .err (.ctx "failed to set rlimit" (.msg m))⟩ := by
    unfold rlimitStage
    simp only [hrl]
    exact applyRlimits_fail env l1 l2 r m h1 hfail
  have hcont : container_intermediate env args =
      ⟨(userNsStage env (Namespaces.fromList linux.namespaces)).trace ++
         (l1 ++ [r]).map (fun x => Event.setRlimit x),
       .err (.ctx "failed to set rlimit" (.msg m))⟩ := by
    unfold container_intermediate
    simp only [hl, hproc]
    rw [andThen_of_ok _ huser, hrstage]
    simp [Comp.andThen]
  rw [hcont]
  refine ⟨rfl, ?_⟩
  have hu_trace := (stepsTo_userNsStage env
    (Namespaces.fromList linux.namespaces)).1 huser
  simp only [List.filter_append, hu_trace, filter_setRlimit_userNs,
    filter_setRlimit_map]
  simp

/-- Environment in which every rlimit application fails with the same
message (a realistic syscall error) and everything else succeeds. -/
def envRlConst : Env :=
  ⟨fun _ => none, fun _ => none, none, none, none, fun _ => some "EPERM",
   .ok 10, none, none, none, .ok 42, none, none, none, none, 7⟩

/-- Arguments with no namespaces and a single rlimit, used by the C8
refutation. -/
def args8A : ContainerArgs :=
  ⟨⟨some ⟨none, none⟩, some ⟨some [rlimitNoFile]⟩⟩, true, none⟩

/-- As `args8A` but with a different (distinct) offending rlimit. -/
def args8B : ContainerArgs :=
  ⟨⟨some ⟨none, none⟩, some ⟨some [rlimitNproc]⟩⟩, true, none⟩

/-- Counterexample to C8 as stated: two runs whose failing rlimits differ
produce exactly the same error value, so the returned error does not
identify the offending limit. -/
theorem C8_rlimit_order_counterexample :
    rlimitNoFile ≠ rlimitNproc ∧
    (container_intermediate envRlConst args8A).res =
      (container_intermediate envRlConst args8B).res ∧
    (container_intermediate envRlConst args8A).res =
      .err (.ctx "failed to set rlimit" (.msg "EPERM")) := by
  refine ⟨by decide, rfl, rfl⟩

/-- Witness for C8 (amended): with three rlimits of which the second
fails, the run aborts with the fixed context and exactly the first two
limits were attempted, in order. -/
theorem C8_rlimit_order_witness :
    (container_intermediate
      ⟨fun _ => none, fun _ => none, none, none, none,
       fun x => if x.typ == "RLIMIT_NPROC" then some "EPERM" else none,
       .ok 10, none, none, none, .ok 42, none, none, none, none, 7⟩
      ⟨⟨some ⟨none, none⟩,
        some ⟨some [rlimitNoFile, rlimitNproc, rlimitNoFile]⟩⟩,
       true, none⟩).res =
      .err (.ctx "failed to set rlimit" (.msg "EPERM")) ∧
    (container_intermediate
      ⟨fun _ => none, fun _ => none, none, none, none,
       fun x => if x.typ == "RLIMIT_NPROC" then some "EPERM" else none,
       .ok 10, none, none, none, .ok 42, none, none, none, none, 7⟩
      ⟨⟨some ⟨none, none⟩,
        some ⟨some [rlimitNoFile, rlimitNproc, rlimitNoFile]⟩⟩,
       true, none⟩).trace.filter isSetRlimitEv =
      ([rlimitNoFile] ++ [rlimitNproc]).map (fun x => Event.setRlimit x) :=
  C8_rlimit_order _ _ ⟨none, none⟩ ⟨some [rlimitNoFile, rlimitNproc, rlimitNoFile]⟩
    [rlimitNoFile] [rlimitNoFile] rlimitNproc "EPERM" rfl rfl rfl
    (by decide) (by decide) rfl

end Youki
